import Mathlib

/-!
Shallow embedding of `src/static/js/main.js` (browser-side UI glue of a
YouTube-downloader front end) and theorems checking the natural-language
specification against it.

Modelling conventions: strings are Lean `String`s (sequences of Unicode
characters), DOM child lists are lists of node identifiers, timer
scheduling is recorded as explicit millisecond offsets from creation, and
the one floating-point computation in the file
(`Math.floor(Math.log(bytes) / Math.log(1024))`) is modelled as the exact
integer logarithm `Nat.log 1024 bytes`.
-/

/-! ## The URL validator (main.js lines 55-58)

The regex of `isValidYouTubeUrl` is anchored at the start of the string
and unanchored at the end.  `test` returns true exactly when some way of
choosing the optional groups and alternatives matches a prefix of the
input, so the embedding computes, group by group, the set of all possible
remainders of the input, and finally asks whether some remainder starts
with 11 characters outside the excluded character class. -/

/-- `litMatch lit s` is true iff the literal `lit` starts the list `s`. -/
def litMatch : List Char → List Char → Bool
  | [], _ => true
  | _ :: _, [] => false
  | a :: as, b :: bs => a == b && litMatch as bs

/-- Consume the literal `lit` at the head of `s`: the list of possible
remainders (empty when `lit` does not start `s`). -/
def consumeLit (lit s : List Char) : List (List Char) :=
  if litMatch lit s then [s.drop lit.length] else []

/-- Try each alternative literal of one regex group, collecting remainders. -/
def litsPart : List (List Char) → List Char → List (List Char)
  | [], _ => []
  | lit :: alts, s => consumeLit lit s ++ litsPart alts s

/-- Feed every remainder produced by one regex group into the next group. -/
def chain : List (List Char) → (List Char → List (List Char)) → List (List Char)
  | [], _ => []
  | s :: rest, f => f s ++ chain rest f

/-- JavaScript regex `.` without the `s` flag: any character that is not a
line terminator (LF, CR, LINE SEPARATOR, PARAGRAPH SEPARATOR). -/
def dotChar (c : Char) : Bool :=
  !(c == '\n' || c == '\r' || c == '\u2028' || c == '\u2029')

/-- The greedy alternative `.+` followed by the literal "?v=" in group 5 of
the regex: all remainders obtained by consuming one or more non-terminator
characters and then the literal "?v=". -/
def dotPlusVeq : List Char → List (List Char)
  | [] => []
  | c :: rest =>
    if dotChar c then consumeLit "?v=".data rest ++ dotPlusVeq rest else []

/-- Group 1 of the regex, optional: "http://" or "https://" or nothing. -/
def schemeAlts : List (List Char) := [[], "http://".data, "https://".data]

/-- Group 2 of the regex, optional: "www." or nothing. -/
def wwwAlts : List (List Char) := [[], "www.".data]

/-- Group 3 of the regex: the host alternatives. -/
def hostAlts : List (List Char) :=
  ["youtube".data, "youtu".data, "youtube-nocookie".data]

/-- The literal dot together with group 4: ".com" or ".be". -/
def domAlts : List (List Char) := [".com".data, ".be".data]

/-- The literal slash after the domain. -/
def slashAlts : List (List Char) := ["/".data]

/-- The literal alternatives of group 5, which is optional: "watch?v=",
"embed/", "v/", or nothing; the remaining alternative is `dotPlusVeq`. -/
def segLitAlts : List (List Char) :=
  [[], "watch?v=".data, "embed/".data, "v/".data]

/-- Group 5 of the regex (the optional path or query segment). -/
def segPart (s : List Char) : List (List Char) :=
  litsPart segLitAlts s ++ dotPlusVeq s

/-- The character class of group 6: any character other than the four
excluded ones (ampersand, equals sign, percent sign, question mark). -/
def idChar (c : Char) : Bool :=
  !(c == '&' || c == '=' || c == '%' || c == '?')

/-- Group 6 of the regex: exactly 11 characters of the class, with
arbitrary text allowed afterwards (the regex is not end-anchored). -/
def idCheck (s : List Char) : Bool :=
  decide (11 ≤ s.length) && (s.take 11).all idChar

/-- `isValidYouTubeUrl` of main.js lines 55-58: the regex test, computed by
threading the input through the groups and checking for an 11-character
video-id token at the end of some thread. -/
def isValidYouTubeUrl (url : String) : Bool :=
  (chain (chain (chain (chain (chain (litsPart schemeAlts url.data)
      (litsPart wwwAlts)) (litsPart hostAlts)) (litsPart domAlts))
      (litsPart slashAlts)) segPart).any idCheck

/-- The declarative shape of group 5, for comparison with the matcher: one
of the three literals, nothing, or one-or-more non-terminator characters
followed by the literal "?v=". -/
def SegShape (seg : List Char) : Prop :=
  seg ∈ segLitAlts ∨
    ∃ p, p ≠ [] ∧ (∀ c ∈ p, dotChar c = true) ∧ seg = p ++ "?v=".data

/-- The documented YouTube-URL shape, stated declaratively: an optional
scheme, an optional "www.", a host, a domain suffix, a slash, an optional
path or query segment, an 11-character video-id token of non-excluded
characters, and arbitrary trailing text. -/
def YouTubeUrlShape (url : String) : Prop :=
  ∃ scheme www host dom seg vid rest : List Char,
    scheme ∈ schemeAlts ∧ www ∈ wwwAlts ∧ host ∈ hostAlts ∧ dom ∈ domAlts ∧
    SegShape seg ∧ vid.length = 11 ∧ (∀ c ∈ vid, idChar c = true) ∧
    url.data = scheme ++ (www ++ (host ++ (dom ++ ("/".data ++ (seg ++ (vid ++ rest))))))

/-! ## The submit handlers (main.js lines 8-38) -/

/-- The JavaScript whitespace set trimmed by `String.prototype.trim`:
WhiteSpace (tab, VT, FF, space, NBSP, ZWNBSP, Space_Separator) together
with the line terminators. -/
def jsWhitespace (c : Char) : Bool :=
  c == '\t' || c == '\n' || c == '\x0b' || c == '\x0c' || c == '\r' ||
  c == ' ' || c == '\u00A0' || c == '\u1680' ||
  ('\u2000' ≤ c && c ≤ '\u200A') ||
  c == '\u2028' || c == '\u2029' || c == '\u202F' || c == '\u205F' ||
  c == '\u3000' || c == '\uFEFF'

/-- `value.trim()` of main.js line 10: strip leading and trailing
JavaScript whitespace. -/
def jsTrim (s : String) : String :=
  String.mk (((s.data.dropWhile jsWhitespace).reverse.dropWhile jsWhitespace).reverse)

/-- Outcome of one submit event: whether `preventDefault` was called and
the list of `showAlert (message, type)` calls made by the handler. -/
structure SubmitOutcome where
  prevented : Bool
  alerts : List (String × String)
deriving DecidableEq

/-- The analyze-form submit handler (main.js lines 9-23): trim the url
field, block with an alert when the trimmed value is empty, block with an
alert when the trimmed value fails the validator, otherwise let the
submission proceed. -/
def analyzeSubmit (value : String) : SubmitOutcome :=
  let url := jsTrim value
  if url = "" then ⟨true, [("Please enter a YouTube URL", "error")]⟩
  else if isValidYouTubeUrl url = false then
    ⟨true, [("Please enter a valid YouTube URL", "error")]⟩
  else ⟨false, []⟩

/-- The download-form submit handler (main.js lines 29-37): block with an
alert when no radio input named "quality" is checked. -/
def downloadSubmit (qualityChecked : Bool) : SubmitOutcome :=
  if qualityChecked = false then
    ⟨true, [("Please select a quality option", "error")]⟩
  else ⟨false, []⟩

/-! ## The alert presenter (main.js lines 41-49 and 63-83) -/

/-- Timer offsets, in milliseconds from scheduling time, of the fade
(opacity set to 0) and of the removal of an alert node. -/
structure AlertTimers where
  fadeAtMs : Nat
  removeAtMs : Nat
deriving DecidableEq

/-- An alert DOM node: its class string, the message text of its
innerHTML, and whether it contains a ".btn-close" dismiss button. -/
structure AlertNode where
  className : String
  message : String
  hasDismissButton : Bool
deriving DecidableEq

/-- The node built by `showAlert` (main.js lines 64-70): the class picks
"danger" for the "error" type and "success" for every other type, and the
innerHTML always contains a btn-close dismiss button. -/
def showAlertNode (message type : String) : AlertNode :=
  { className :=
      "alert alert-" ++ (if type = "error" then "danger" else "success") ++
        " alert-dismissible fade show"
    message := message
    hasDismissButton := true }

/-- The timers set unconditionally by `showAlert` (main.js lines 79-82):
`setTimeout` of 5000 ms fading the node, with a nested `setTimeout` of
300 ms removing it, hence removal 5300 ms after creation. -/
def showAlertTimers : AlertTimers := ⟨5000, 5300⟩

/-- `showAlert` (main.js lines 63-83), as the node it creates and the
timers it schedules; the timers do not depend on the node. -/
def showAlert (message type : String) : AlertNode × AlertTimers :=
  (showAlertNode message type, showAlertTimers)

/-- The DOMContentLoaded pass over pre-existing ".alert" nodes (main.js
lines 41-49): a node that contains a ".btn-close" is skipped; otherwise
fade at 5000 ms and removal 300 ms later are scheduled. -/
def autoDismissPass (node : AlertNode) : Option AlertTimers :=
  if node.hasDismissButton then none else some ⟨5000, 5300⟩

/-- The insertion step of `showAlert` (main.js lines 73-76):
`document.querySelector` yields the first ".container" element or null;
when one exists, `insertBefore (node, container.firstChild)` makes the
node the first child (also when the container was empty), and when none
exists nothing is inserted. -/
def showAlertInsert {α : Type} (container : Option (List α)) (node : α) :
    Option (List α) :=
  match container with
  | none => none
  | some children => some (node :: children)

/-! ## The clipboard helper (main.js lines 88-123) -/

/-- The `showAlert` calls made by `fallbackCopyTextToClipboard` (main.js
lines 114-120): `document.execCommand` either returns a boolean — whose
value the code ignores, reaching the success alert — or throws, reaching
the catch branch with the failure alert (after a console.error log). -/
def fallbackAlerts (legacy : Except Unit Bool) : List (String × String) :=
  match legacy with
  | .ok _ => [("URL copied to clipboard!", "success")]
  | .error _ => [("Failed to copy URL", "error")]

/-- Outcome of `copyToClipboard`: whether the text-area fallback ran and
the `showAlert` calls made. -/
structure ClipboardOutcome where
  usedFallback : Bool
  alerts : List (String × String)
deriving DecidableEq

/-- `copyToClipboard` (main.js lines 88-99): when `navigator.clipboard`
exists and the context is secure, try the modern write; on resolution show
the success alert, on rejection log and run the fallback; without the
modern API run the fallback directly. -/
def copyToClipboard (clipboardApi secureContext writeOk : Bool)
    (legacy : Except Unit Bool) : ClipboardOutcome :=
  if clipboardApi && secureContext then
    if writeOk then ⟨false, [("URL copied to clipboard!", "success")]⟩
    else ⟨true, fallbackAlerts legacy⟩
  else ⟨true, fallbackAlerts legacy⟩

/-- The child list of `document.body` across `fallbackCopyTextToClipboard`
(main.js lines 101-123): `appendChild textArea`, then the try/catch (whose
branches only call `showAlert` and `console.error`), then
`removeChild textArea` on both paths; nodes are modelled by identifiers
and `removeChild` removes its argument. -/
def fallbackCopyBodyAfter (body : List Nat) (textArea : Nat)
    (legacy : Except Unit Bool) : List Nat :=
  let afterAppend := body ++ [textArea]
  let _alerts := fallbackAlerts legacy
  afterAppend.erase textArea

/-! ## The formatters (main.js lines 128-151) -/

/-- The `sizes` array of `formatFileSize` (main.js line 132). -/
def sizes : List String := ["Bytes", "KB", "MB", "GB"]

/-- JavaScript array indexing: out-of-bounds reads give `undefined`, which
string-concatenates as "undefined". -/
def sizesD (i : Nat) : String := sizes.getD i "undefined"

/-- `(x).toFixed(1)` for non-negative x, as the value in tenths: round to
the nearest tenth, half away from zero. -/
def fixed1 (q : ℚ) : ℕ := ⌊q * 10 + 1 / 2⌋.toNat

/-- `parseFloat` applied to a one-decimal string: the trailing ".0" is
dropped, so a multiple of ten tenths prints as an integer. -/
def oneDecimalRepr (n : ℕ) : String :=
  if n % 10 = 0 then toString (n / 10)
  else toString (n / 10) ++ "." ++ toString (n % 10)

/-- `formatFileSize` (main.js lines 128-136): zero maps to "0 Bytes";
otherwise the scale index `Math.floor (Math.log bytes / Math.log 1024)` —
modelled as the exact integer logarithm — selects the unit, and the byte
count scaled by that power of 1024 is printed with `toFixed(1)` and
`parseFloat`. -/
def formatFileSize (bytes : ℕ) : String :=
  if bytes = 0 then "0 Bytes"
  else
    oneDecimalRepr (fixed1 ((bytes : ℚ) / 1024 ^ Nat.log 1024 bytes)) ++ " " ++
      sizesD (Nat.log 1024 bytes)

/-- `String.prototype.padStart (2, Z)` where Z is the zero digit. -/
def padStart2 (s : String) : String :=
  if 2 ≤ s.length then s
  else String.mk (List.replicate (2 - s.length) '0') ++ s

/-- `formatDuration` (main.js lines 141-151) on whole second counts. -/
def formatDuration (seconds : ℕ) : String :=
  let hours := seconds / 3600
  let minutes := seconds % 3600 / 60
  let secs := seconds % 60
  if hours > 0 then
    toString hours ++ ":" ++ padStart2 (toString minutes) ++ ":" ++
      padStart2 (toString secs)
  else
    toString minutes ++ ":" ++ padStart2 (toString secs)

/-! ## The progress animator (main.js lines 156-176) -/

/-- One frame of `animateProgressBar` (main.js lines 163-173): the width
written at a given elapsed time, with `startWidth` the literal 0 of the
source (the element's prior width is never read). -/
def animFrameWidth (targetWidth duration elapsed : ℚ) : ℚ :=
  let startWidth : ℚ := 0
  let progress := min (elapsed / duration) 1
  startWidth + (targetWidth - startWidth) * progress

/-- Whether the frame at the given elapsed time schedules another frame
(main.js lines 170-172): only while progress is below 1. -/
def animContinues (duration elapsed : ℚ) : Bool :=
  decide (min (elapsed / duration) 1 < 1)

/-! ## Helper lemmas -/

theorem isValid_empty : isValidYouTubeUrl "" = false := by decide

theorem jsTrim_of_all_whitespace {v : String}
    (h : ∀ c ∈ v.data, jsWhitespace c = true) : jsTrim v = "" := by
  unfold jsTrim
  have h1 : v.data.dropWhile jsWhitespace = [] :=
    List.dropWhile_eq_nil_iff.mpr h
  rw [h1]
  rfl

theorem natLog1024_1024 : Nat.log 1024 1024 = 1 :=
  Nat.log_eq_of_pow_le_of_lt_pow (by norm_num) (by norm_num)

theorem natLog1024_1536 : Nat.log 1024 1536 = 1 :=
  Nat.log_eq_of_pow_le_of_lt_pow (by norm_num) (by norm_num)

theorem natLog1024_2pow41 : Nat.log 1024 (2 ^ 41) = 4 :=
  Nat.log_eq_of_pow_le_of_lt_pow (by norm_num) (by norm_num)

/-! ## Formatters: claims C2 and C3 -/

/-- Claim C3: the spec's concrete formatter examples hold:
formatFileSize 0 = "0 Bytes", formatFileSize 1024 = "1 KB",
formatFileSize 1536 = "1.5 KB", formatDuration 65 = "1:05",
formatDuration 3661 = "1:01:01". -/
theorem formatter_examples :
    formatFileSize 0 = "0 Bytes" ∧ formatFileSize 1024 = "1 KB" ∧
    formatFileSize 1536 = "1.5 KB" ∧ formatDuration 65 = "1:05" ∧
    formatDuration 3661 = "1:01:01" := by
  refine ⟨rfl, ?_, ?_, by decide, by decide⟩
  · unfold formatFileSize
    rw [if_neg (by norm_num), natLog1024_1024]
    have hf : fixed1 (((1024 : ℕ) : ℚ) / 1024 ^ 1) = 10 := by
      norm_num [fixed1]
      rfl
    rw [hf]
    decide
  · unfold formatFileSize
    rw [if_neg (by norm_num), natLog1024_1536]
    have hf : fixed1 (((1536 : ℕ) : ℚ) / 1024 ^ 1) = 15 := by
      norm_num [fixed1]
      rfl
    rw [hf]
    decide

/-- Claim C2 counterexample: at 2 to the 41st bytes the scale index is 4,
`sizes` has no entry there, and the unit printed is the JavaScript
"undefined" rather than one of the four documented unit labels, so
formatFileSize is not total onto magnitude-plus-listed-unit strings. -/
theorem formatFileSize_terabyte_counterexample :
    formatFileSize (2 ^ 41) = "2 undefined" ∧ "undefined" ∉ sizes := by
  constructor
  · unfold formatFileSize
    rw [if_neg (by norm_num), natLog1024_2pow41]
    have hf : fixed1 (((2 ^ 41 : ℕ) : ℚ) / 1024 ^ 4) = 20 := by
      norm_num [fixed1]
      rfl
    rw [hf]
    decide
  · decide

/-- Claim C2 (amended): for every byte count below 1024 to the 4th,
formatFileSize returns "0 Bytes" or a magnitude with at most one decimal
place followed by a unit label among "Bytes", "KB", "MB", "GB". -/
theorem formatFileSize_unit_below_terabyte (b : ℕ) (h : b < 1024 ^ 4) :
    formatFileSize b = "0 Bytes" ∨
      ∃ u ∈ sizes,
        formatFileSize b =
          oneDecimalRepr (fixed1 ((b : ℚ) / 1024 ^ Nat.log 1024 b)) ++ " " ++ u := by
  by_cases hb : b = 0
  · exact Or.inl (by simp [formatFileSize, hb])
  · right
    have h4 : Nat.log 1024 b < 4 := Nat.log_lt_of_lt_pow hb h
    refine ⟨sizesD (Nat.log 1024 b), ?_, by simp [formatFileSize, hb]⟩
    set i := Nat.log 1024 b with hi
    interval_cases i <;> decide

theorem formatFileSize_unit_below_terabyte_witness :
    formatFileSize 1536 = "0 Bytes" ∨
      ∃ u ∈ sizes,
        formatFileSize 1536 =
          oneDecimalRepr (fixed1 ((1536 : ℚ) / 1024 ^ Nat.log 1024 1536)) ++ " " ++ u :=
  formatFileSize_unit_below_terabyte 1536 (by norm_num)

/-! ## Alert presenter: claims C5 and C7 -/

/-- Claim C5: every banner created by showAlert is faded 5000 ms after
creation and removed 300 ms after that (the source registers no
cancellation hook, so no user interaction can stop the timers); the
page-load pass skips any pre-existing alert containing a dismiss button
and schedules every one without; programmatically created alerts contain
a dismiss button yet showAlert schedules the same timers unconditionally. -/
theorem alert_lifecycle (m t cn msg : String) :
    (showAlert m t).2 = ⟨5000, 5300⟩ ∧
    (showAlert m t).1.hasDismissButton = true ∧
    autoDismissPass ⟨cn, msg, true⟩ = none ∧
    autoDismissPass ⟨cn, msg, false⟩ = some (showAlert m t).2 :=
  ⟨rfl, rfl, rfl, rfl⟩

/-- Claim C7: showAlert's banner carries class alert-danger exactly for the
"error" severity and alert-success for every other severity, and it is
inserted as the first child of the first ".container" element when one
exists, with no insertion otherwise. -/
theorem showAlert_class_and_insertion (m t : String) (node : ℕ)
    (children : List ℕ) :
    (showAlertNode m t).className =
      (if t = "error" then "alert alert-danger alert-dismissible fade show"
       else "alert alert-success alert-dismissible fade show") ∧
    showAlertInsert (some children) node = some (node :: children) ∧
    showAlertInsert (none : Option (List ℕ)) node = none := by
  refine ⟨?_, rfl, rfl⟩
  by_cases h : t = "error" <;> simp [showAlertNode, h]

/-! ## Clipboard helper: claims C6 and C9 -/

/-- Claim C6: without the modern clipboard API, or when the modern write
rejects, copyToClipboard runs the text-area fallback; the fallback reports
success when the legacy copy returns and failure when it throws; every
path reports the outcome through exactly one showAlert call and nothing
retries. -/
theorem copyToClipboard_fallback_reporting (api sec w : Bool)
    (legacy : Except Unit Bool) :
    ((api && sec) = false ∨ w = false →
      (copyToClipboard api sec w legacy).usedFallback = true) ∧
    ((copyToClipboard api sec w legacy).usedFallback = true →
      (copyToClipboard api sec w legacy).alerts = fallbackAlerts legacy) ∧
    (∀ b, legacy = .ok b →
      fallbackAlerts legacy = [("URL copied to clipboard!", "success")]) ∧
    (∀ u, legacy = .error u →
      fallbackAlerts legacy = [("Failed to copy URL", "error")]) ∧
    (copyToClipboard api sec w legacy).alerts.length = 1 := by
  cases legacy <;> cases api <;> cases sec <;> cases w <;>
    simp [copyToClipboard, fallbackAlerts]

theorem copyToClipboard_fallback_reporting_witness :
    (copyToClipboard false false false (Except.ok true)).usedFallback = true :=
  (copyToClipboard_fallback_reporting false false false (Except.ok true)).1
    (Or.inl rfl)

/-- Claim C9: fallbackCopyTextToClipboard appends one fresh textarea to the
body and removes that same textarea before returning, on the success path
and on the exception path alike, leaving the body's child list unchanged. -/
theorem fallbackCopy_body_net_unchanged (body : List ℕ) (ta : ℕ)
    (legacy : Except Unit Bool) (h : ta ∉ body) :
    fallbackCopyBodyAfter body ta legacy = body ∧
    (body ++ [ta]).length = body.length + 1 := by
  constructor
  · show (body ++ [ta]).erase ta = body
    rw [List.erase_append_right _ h, List.erase_cons_head, List.append_nil]
  · simp

theorem fallbackCopy_body_net_unchanged_witness :
    fallbackCopyBodyAfter [0, 1] 2 (Except.ok true) = [0, 1] :=
  (fallbackCopy_body_net_unchanged [0, 1] 2 (Except.ok true) (by decide)).1

/-! ## Progress animator: claim C8 -/

/-- Claim C8: each frame writes a width of targetWidth times
min (elapsed over duration) 1 percent, a linear interpolation from the
fixed start value 0; once elapsed reaches the duration the width written
is exactly the target and no further frame is scheduled, so the animation
terminates. -/
theorem animateProgressBar_interpolation (target duration elapsed : ℚ)
    (hd : 0 < duration) :
    animFrameWidth target duration elapsed =
      target * min (elapsed / duration) 1 ∧
    (duration ≤ elapsed →
      animFrameWidth target duration elapsed = target ∧
      animContinues duration elapsed = false) := by
  have hfw : animFrameWidth target duration elapsed =
      0 + (target - 0) * min (elapsed / duration) 1 := rfl
  constructor
  · rw [hfw]; ring
  · intro h
    have h1 : (1 : ℚ) ≤ elapsed / duration := (one_le_div hd).mpr h
    have hmin : min (elapsed / duration) 1 = 1 := min_eq_right h1
    constructor
    · rw [hfw, hmin]; ring
    · show decide (min (elapsed / duration) 1 < 1) = false
      rw [hmin]
      decide

theorem animateProgressBar_interpolation_witness :
    animFrameWidth 50 1000 1000 = 50 ∧ animContinues 1000 1000 = false :=
  (animateProgressBar_interpolation 50 1000 1000 (by norm_num)).2 (by norm_num)

/-! ## Submit handlers: claims C4 and C10 -/

/-- Claim C4 counterexample: the raw field value with a leading space fails
isValidYouTubeUrl, yet the handler trims before checking, so submission
proceeds with no prevention and no alert — refuting the claim as stated on
the raw field value. -/
theorem analyzeSubmit_raw_value_counterexample :
    isValidYouTubeUrl " https://www.youtube.com/watch?v=dQw4w9WgXcQ" = false ∧
    analyzeSubmit " https://www.youtube.com/watch?v=dQw4w9WgXcQ" =
      ⟨false, []⟩ := by
  constructor
  · decide
  · decide

/-- Claim C4 (amended): with both checks applied to the trimmed URL value:
an empty or invalid trimmed value blocks submission with exactly one
alert, a valid trimmed value passes with none; a download submission with
no quality radio checked is blocked with exactly one alert, with one
checked it passes with none. -/
theorem submit_validation_trimmed (v : String) (qualityChecked : Bool) :
    ((jsTrim v = "" ∨ isValidYouTubeUrl (jsTrim v) = false) →
      (analyzeSubmit v).prevented = true ∧
        (analyzeSubmit v).alerts.length = 1) ∧
    (isValidYouTubeUrl (jsTrim v) = true →
      (analyzeSubmit v).prevented = false ∧ (analyzeSubmit v).alerts = []) ∧
    (qualityChecked = false →
      (downloadSubmit qualityChecked).prevented = true ∧
        (downloadSubmit qualityChecked).alerts.length = 1) ∧
    (qualityChecked = true →
      (downloadSubmit qualityChecked).prevented = false ∧
        (downloadSubmit qualityChecked).alerts = []) := by
  refine ⟨?_, ?_, ?_, ?_⟩
  · rintro (h | h)
    · simp [analyzeSubmit, h]
    · by_cases he : jsTrim v = ""
      · simp [analyzeSubmit, he]
      · simp [analyzeSubmit, he, h]
  · intro h
    have hne : jsTrim v ≠ "" := fun he => by
      rw [he, isValid_empty] at h
      exact Bool.false_ne_true h
    simp [analyzeSubmit, hne, h]
  · rintro rfl
    simp [downloadSubmit]
  · rintro rfl
    simp [downloadSubmit]

theorem submit_validation_trimmed_witness :
    (analyzeSubmit "").prevented = true ∧
      (analyzeSubmit "").alerts.length = 1 :=
  (submit_validation_trimmed "" false).1 (Or.inl (by decide))

/-- Claim C10: the analyze handler trims before both checks: an input of
nothing but whitespace is blocked with the missing-URL alert, any other
input has the validator applied to its trimmed value, and surrounding
whitespace never causes rejection of an otherwise valid URL. -/
theorem analyzeSubmit_trims_before_checks (v : String) :
    ((∀ c ∈ v.data, jsWhitespace c = true) →
      analyzeSubmit v = ⟨true, [("Please enter a YouTube URL", "error")]⟩) ∧
    (jsTrim v ≠ "" →
      analyzeSubmit v =
        if isValidYouTubeUrl (jsTrim v) = false then
          ⟨true, [("Please enter a valid YouTube URL", "error")]⟩
        else ⟨false, []⟩) ∧
    (isValidYouTubeUrl (jsTrim v) = true → analyzeSubmit v = ⟨false, []⟩) := by
  refine ⟨?_, ?_, ?_⟩
  · intro h
    simp [analyzeSubmit, jsTrim_of_all_whitespace h]
  · intro h
    simp only [analyzeSubmit]
    rw [if_neg h]
  · intro h
    have hne : jsTrim v ≠ "" := fun he => by
      rw [he, isValid_empty] at h
      exact Bool.false_ne_true h
    simp [analyzeSubmit, hne, h]

theorem analyzeSubmit_trims_before_checks_witness :
    analyzeSubmit "   " = ⟨true, [("Please enter a YouTube URL", "error")]⟩ :=
  (analyzeSubmit_trims_before_checks "   ").1 (by decide)

/-! ## URL validator: claim C1 -/

theorem litMatch_iff {lit s : List Char} :
    litMatch lit s = true ↔ ∃ t, s = lit ++ t := by
  induction lit generalizing s with
  | nil => simp [litMatch]
  | cons a as ih =>
    cases s with
    | nil => simp [litMatch]
    | cons b bs =>
      simp only [litMatch, Bool.and_eq_true, beq_iff_eq, ih, List.cons_append,
        List.cons.injEq]
      constructor
      · rintro ⟨hab, t, ht⟩
        exact ⟨t, hab.symm, ht⟩
      · rintro ⟨t, hba, ht⟩
        exact ⟨hba.symm, t, ht⟩

theorem mem_consumeLit {lit s r : List Char} :
    r ∈ consumeLit lit s ↔ s = lit ++ r := by
  unfold consumeLit
  by_cases h : litMatch lit s = true
  · obtain ⟨t, rfl⟩ := litMatch_iff.mp h
    rw [if_pos h]
    simp [List.drop_left, eq_comm]
  · rw [if_neg h]
    simp only [List.not_mem_nil, false_iff]
    rintro rfl
    exact h (litMatch_iff.mpr ⟨r, rfl⟩)

theorem mem_litsPart {alts : List (List Char)} {s r : List Char} :
    r ∈ litsPart alts s ↔ ∃ p ∈ alts, s = p ++ r := by
  induction alts with
  | nil => simp [litsPart]
  | cons lit alts ih => simp [litsPart, mem_consumeLit, ih]

theorem mem_chain {l : List (List Char)} {f : List Char → List (List Char)}
    {r : List Char} : r ∈ chain l f ↔ ∃ s ∈ l, r ∈ f s := by
  induction l with
  | nil => simp [chain]
  | cons s rest ih => simp [chain, ih]

theorem mem_dotPlusVeq {s r : List Char} :
    r ∈ dotPlusVeq s ↔
      ∃ p, p ≠ [] ∧ (∀ c ∈ p, dotChar c = true) ∧ s = p ++ "?v=".data ++ r := by
  induction s with
  | nil =>
    simp only [dotPlusVeq, List.not_mem_nil, false_iff]
    rintro ⟨p, hp, -, hs⟩
    cases p with
    | nil => exact hp rfl
    | cons c cs => simp at hs
  | cons c rest ih =>
    by_cases hc : dotChar c = true
    · rw [dotPlusVeq, if_pos hc, List.mem_append, mem_consumeLit, ih]
      constructor
      · rintro (h | ⟨p, hp, hdot, hs⟩)
        · exact ⟨[c], by simp, by simpa using hc, by simp [h]⟩
        · refine ⟨c :: p, by simp, ?_, by simp [hs]⟩
          intro x hx
          rcases List.mem_cons.mp hx with rfl | hx
          · exact hc
          · exact hdot x hx
      · rintro ⟨p, hp, hdot, hs⟩
        cases p with
        | nil => exact absurd rfl hp
        | cons d p2 =>
          simp only [List.cons_append, List.cons.injEq] at hs
          obtain ⟨rfl, hrest⟩ := hs
          cases p2 with
          | nil => exact Or.inl (by simpa using hrest)
          | cons d2 p3 =>
            refine Or.inr ⟨d2 :: p3, by simp, ?_, hrest⟩
            intro x hx
            exact hdot x (List.mem_cons_of_mem _ hx)
    · rw [dotPlusVeq, if_neg hc]
      simp only [List.not_mem_nil, false_iff]
      rintro ⟨p, hp, hdot, hs⟩
      cases p with
      | nil => exact absurd rfl hp
      | cons d p2 =>
        simp only [List.cons_append, List.cons.injEq] at hs
        obtain ⟨rfl, -⟩ := hs
        exact hc (hdot _ (List.mem_cons_self _ _))

theorem mem_segPart {s r : List Char} :
    r ∈ segPart s ↔ ∃ seg, SegShape seg ∧ s = seg ++ r := by
  unfold segPart SegShape
  rw [List.mem_append, mem_litsPart, mem_dotPlusVeq]
  constructor
  · rintro (⟨p, hp, rfl⟩ | ⟨p, hp, hdot, rfl⟩)
    · exact ⟨p, Or.inl hp, rfl⟩
    · exact ⟨p ++ "?v=".data, Or.inr ⟨p, hp, hdot, rfl⟩, by
        rw [List.append_assoc]⟩
  · rintro ⟨seg, (hseg | ⟨p, hp, hdot, rfl⟩), rfl⟩
    · exact Or.inl ⟨seg, hseg, rfl⟩
    · exact Or.inr ⟨p, hp, hdot, by rw [List.append_assoc]⟩

theorem idCheck_iff {s : List Char} :
    idCheck s = true ↔
      ∃ vid rest : List Char,
        s = vid ++ rest ∧ vid.length = 11 ∧ ∀ c ∈ vid, idChar c = true := by
  unfold idCheck
  rw [Bool.and_eq_true, decide_eq_true_iff, List.all_eq_true]
  constructor
  · rintro ⟨hlen, hall⟩
    refine ⟨s.take 11, s.drop 11, (List.take_append_drop 11 s).symm, ?_, hall⟩
    rw [List.length_take]
    omega
  · rintro ⟨vid, rest, rfl, hlen, hall⟩
    have htake : (vid ++ rest).take 11 = vid := by
      rw [← hlen, List.take_left]
    refine ⟨by rw [List.length_append]; omega, ?_⟩
    intro c hc
    rw [htake] at hc
    exact hall c hc

/-- Claim C1: isValidYouTubeUrl returns true exactly on the strings of the
documented YouTube-URL shape — optional scheme, optional "www.", a host
among youtube, youtu, youtube-nocookie, suffix ".com" or ".be", a slash,
an optional path or query segment, and an 11-character video-id token free
of the four excluded characters — so every string lacking such an
11-character id segment in that position is rejected. -/
theorem isValidYouTubeUrl_iff_shape (url : String) :
    isValidYouTubeUrl url = true ↔ YouTubeUrlShape url := by
  unfold isValidYouTubeUrl YouTubeUrlShape
  rw [List.any_eq_true]
  constructor
  · rintro ⟨s6, hs6, hid⟩
    rw [mem_chain] at hs6
    obtain ⟨s5, hs5, hseg⟩ := hs6
    rw [mem_chain] at hs5
    obtain ⟨s4, hs4, hslash⟩ := hs5
    rw [mem_chain] at hs4
    obtain ⟨s3, hs3, hdom⟩ := hs4
    rw [mem_chain] at hs3
    obtain ⟨s2, hs2, hhost⟩ := hs3
    rw [mem_chain] at hs2
    obtain ⟨s1, hs1, hwww⟩ := hs2
    rw [mem_litsPart] at hs1 hwww hhost hdom hslash
    rw [mem_segPart] at hseg
    rw [idCheck_iff] at hid
    obtain ⟨p1, hp1, hu⟩ := hs1
    obtain ⟨p2, hp2, rfl⟩ := hwww
    obtain ⟨p3, hp3, rfl⟩ := hhost
    obtain ⟨p4, hp4, rfl⟩ := hdom
    obtain ⟨p5, hp5, rfl⟩ := hslash
    obtain ⟨seg, hsegshape, rfl⟩ := hseg
    obtain ⟨vid, rest, rfl, hlen, hall⟩ := hid
    simp only [slashAlts, List.mem_singleton] at hp5
    subst hp5
    exact ⟨p1, p2, p3, p4, seg, vid, rest, hp1, hp2, hp3, hp4, hsegshape,
      hlen, hall, by simpa using hu⟩
  · rintro ⟨p1, p2, p3, p4, seg, vid, rest, hp1, hp2, hp3, hp4, hsegshape,
      hlen, hall, hurl⟩
    refine ⟨vid ++ rest, ?_, idCheck_iff.mpr ⟨vid, rest, rfl, hlen, hall⟩⟩
    rw [mem_chain]
    refine ⟨seg ++ (vid ++ rest), ?_, mem_segPart.mpr ⟨seg, hsegshape, rfl⟩⟩
    rw [mem_chain]
    refine ⟨"/".data ++ (seg ++ (vid ++ rest)), ?_,
      mem_litsPart.mpr ⟨"/".data, by simp [slashAlts], rfl⟩⟩
    rw [mem_chain]
    refine ⟨p4 ++ ("/".data ++ (seg ++ (vid ++ rest))), ?_,
      mem_litsPart.mpr ⟨p4, hp4, rfl⟩⟩
    rw [mem_chain]
    refine ⟨p3 ++ (p4 ++ ("/".data ++ (seg ++ (vid ++ rest)))), ?_,
      mem_litsPart.mpr ⟨p3, hp3, rfl⟩⟩
    rw [mem_chain]
    refine ⟨p2 ++ (p3 ++ (p4 ++ ("/".data ++ (seg ++ (vid ++ rest))))), ?_,
      mem_litsPart.mpr ⟨p2, hp2, rfl⟩⟩
    exact mem_litsPart.mpr ⟨p1, hp1, hurl⟩

theorem isValidYouTubeUrl_iff_shape_witness :
    YouTubeUrlShape "https://www.youtube.com/watch?v=dQw4w9WgXcQ" :=
  (isValidYouTubeUrl_iff_shape "https://www.youtube.com/watch?v=dQw4w9WgXcQ").mp
    (by decide)
